import Mathlib

/-!
Shallow embedding of `src/channel-display-gst.c` (spice-gtk GStreamer video
decoder layer).  The external GStreamer pipeline is modelled by an oracle
(`PipelineEnv`) describing the results of the push / pull / map calls made
during one decode call, and by a schedule (`List Nat`) of `signal_pipeline`
invocations (the argument of each call: 0 for `appsrc_need_data_cb`, 1 for
`appsink_new_sample_cb`) delivered while the decode call is inside its
condition-variable wait.  Machine integers: `samples_count` is a `uint32_t`,
embedded as `Nat` with arithmetic reduced `% 2 ^ 32`.  A dereference of a
NULL `GStreamerDecoder *` is modelled as the explicit outcome `nullDeref`.
-/

namespace SpiceGst

/-- The `uint32_t` modulus. -/
def U32 : Nat := 2 ^ 32

/-- SPICE video codec identifiers relevant to `construct_pipeline`. -/
inductive CodecType where
  | mjpeg
  | vp8
  | h264
  | other (n : Nat)
deriving DecidableEq, Repr

/-- A GStreamer sample reference: an identity for the reference plus the
address its buffer maps to when `gst_buffer_map` succeeds. -/
structure GstSample where
  sid : Nat
  dataPtr : Nat
deriving DecidableEq, Repr

/-- The fields of `struct GStreamerDecoder` the control flow reads and
writes.  `pipeline` is whether `decoder->pipeline` is non-NULL.
`leakedRefs` is a ghost ledger: the identities of sample / mapped-memory
references that were overwritten without being unreffed (it stays empty as
long as the code honours the release discipline). -/
structure GStreamerDecoder where
  pipeline : Bool
  pipeline_wait : Nat
  samples_count : Nat
  sample : Option GstSample
  mapinfo_memory : Option Nat
  leakedRefs : List Nat
deriving DecidableEq, Repr

/-- The fields of `display_stream` this layer touches. -/
structure display_stream where
  codec : CodecType
  frame_size : Nat
  gst_dec : Option GStreamerDecoder
  out_frame : Option Nat
deriving DecidableEq, Repr

/-- Oracle for the external pipeline calls made during one decode call. -/
structure PipelineEnv where
  pushOk : Bool
  pullSample : Option GstSample
  mapOk : Bool
deriving DecidableEq, Repr

/-- Embeds `signal_pipeline`: under the mutex, clear `pipeline_wait`, add `samples`
to `samples_count` (`uint32_t` addition), signal the condition variable. -/
def signal_pipeline (decoder : GStreamerDecoder) (samples : Nat) : GStreamerDecoder :=
  { decoder with
      pipeline_wait := 0
      samples_count := (decoder.samples_count + samples) % U32 }

/-- Embeds `appsrc_need_data_cb`: the pipeline asks for more input. -/
def appsrc_need_data_cb (decoder : GStreamerDecoder) : GStreamerDecoder :=
  signal_pipeline decoder 0

/-- Embeds `appsink_new_sample_cb`: a decoded output sample became available. -/
def appsink_new_sample_cb (decoder : GStreamerDecoder) : GStreamerDecoder :=
  signal_pipeline decoder 1

/-- Embeds `release_last_frame`: unmap and unref the mapped memory, unref the held
sample, null `st->out_frame`.  The C code reads `decoder->mapinfo.memory`
through `st->gst_dec` without a NULL check, so a stream with no decoder is a
NULL dereference (`none`). -/
def release_last_frame (st : display_stream) : Option display_stream :=
  match st.gst_dec with
  | none => none
  | some decoder =>
    let decoder := if decoder.mapinfo_memory.isSome then
        { decoder with mapinfo_memory := none } else decoder
    let decoder := if decoder.sample.isSome then
        { decoder with sample := none } else decoder
    some { st with gst_dec := some decoder, out_frame := none }

/-- Embeds `pull_raw_frame`: store the result of `gst_app_sink_pull_sample` in
`decoder->sample`; on a sample, try `gst_buffer_map` and on success record
the mapped memory and expose its data pointer in `st->out_frame`.
Overwriting a still-held reference without unref goes to `leakedRefs`. -/
def pull_raw_frame (env : PipelineEnv) (st : display_stream) : Option display_stream :=
  match st.gst_dec with
  | none => none
  | some decoder =>
    let lost := (match decoder.sample with
      | some s => [s.sid]
      | none => [])
    let decoder := { decoder with
        sample := env.pullSample
        leakedRefs := lost ++ decoder.leakedRefs }
    match env.pullSample with
    | none => some { st with gst_dec := some decoder }
    | some s =>
      if env.mapOk then
        let lostMem := (match decoder.mapinfo_memory with
          | some m => [m]
          | none => [])
        some { st with
            gst_dec := some { decoder with
                mapinfo_memory := some s.sid
                leakedRefs := lostMem ++ decoder.leakedRefs }
            out_frame := some s.dataPtr }
      else
        some { st with gst_dec := some decoder }

/-- Embeds `push_compressed_buffer`: returns `(gboolean result, whether
gst_app_src_push_buffer was invoked)`.  A zero-length current frame is
refused before any buffer is built or pushed; otherwise the push happens
and the oracle decides whether the pipeline accepts it. -/
def push_compressed_buffer (env : PipelineEnv) (st : display_stream) : Bool × Bool :=
  if st.frame_size = 0 then (false, false)
  else (env.pushOk, true)

/-- What one `stream_gst_data` call did: whether the pipeline push was
invoked, whether the call entered the condition-variable wait section, and
whether `pull_raw_frame` was invoked. -/
structure DecodeTrace where
  pushAttempted : Bool
  waited : Bool
  pulled : Bool
deriving DecidableEq, Repr

/-- Outcome of one `stream_gst_data` call: the call returned (with the
resulting stream state and its trace), the wait loop never exited under the
given schedule, or a NULL decoder pointer was dereferenced. -/
inductive DecodeResult where
  | done : display_stream → DecodeTrace → DecodeResult
  | blocked : DecodeTrace → DecodeResult
  | nullDeref : DecodeResult
deriving DecidableEq, Repr

/-- Embeds `stream_gst_data`: release the previous output frame, arm
`pipeline_wait`, push the compressed buffer; on success wait until a
`signal_pipeline` delivery clears `pipeline_wait` (`sched` lists the
deliveries that happen before the wait loop's successful exit check; if
they leave the flag set the call is blocked), then under the same critical
section re-arm the flag, read `samples_count` and decrement it only when it
was non-zero, and finally pull one raw frame when a sample was counted. -/
def stream_gst_data (env : PipelineEnv) (sched : List Nat) (st : display_stream) :
    DecodeResult :=
  match release_last_frame st with
  | none => .nullDeref
  | some st1 =>
    match st1.gst_dec with
    | none => .nullDeref
    | some d1 =>
      let d2 := { d1 with pipeline_wait := 1 }
      let st2 := { st1 with gst_dec := some d2 }
      let push := push_compressed_buffer env st2
      if push.1 then
        let dw := sched.foldl signal_pipeline d2
        if dw.pipeline_wait = 0 then
          let samples := dw.samples_count
          let d3 := { dw with
              pipeline_wait := 1
              samples_count := if samples ≠ 0 then samples - 1 else samples }
          let st3 := { st2 with gst_dec := some d3 }
          if samples ≠ 0 then
            match pull_raw_frame env st3 with
            | none => .nullDeref
            | some st4 => .done st4 ⟨push.2, true, true⟩
          else
            .done st3 ⟨push.2, true, false⟩
        else
          .blocked ⟨push.2, true, false⟩
      else
        .done st2 ⟨push.2, false, false⟩

/-- The `src_caps` string chosen by the codec switch in `construct_pipeline`
(`NULL` for an unknown codec). -/
def codec_src_caps : CodecType → Option String
  | .mjpeg => some "caps=image/jpeg"
  | .vp8 => some "caps=video/x-vp8"
  | .h264 => some "caps=video/x-h264"
  | .other _ => none

/-- The `gstdec_name` string chosen by the codec switch in
`construct_pipeline` (`NULL` for an unknown codec). -/
def codec_gstdec_name : CodecType → Option String
  | .mjpeg => some "jpegdec"
  | .vp8 => some "vp8dec"
  | .h264 => some "h264parse ! avdec_h264"
  | .other _ => none

/-- The effective `src_caps` after the `SPICE_GST_AUTO` override:
`if (!src_caps || (gst_auto && strcmp(gst_auto, "decodebin"))) src_caps =
"typefind=true";` — `gst_auto` is `getenv("SPICE_GST_AUTO")`, `none` when
the variable is unset. -/
def effective_src_caps (codec : CodecType) (gst_auto : Option String) : String :=
  match codec_src_caps codec, gst_auto with
  | none, _ => "typefind=true"
  | some s, none => s
  | some s, some a => if a ≠ "decodebin" then "typefind=true" else s

/-- The effective `gstdec_name` after the `SPICE_GST_AUTO` override:
`if (!gstdec_name || gst_auto) gstdec_name = "decodebin";`. -/
def effective_gstdec_name (codec : CodecType) (gst_auto : Option String) : String :=
  match codec_gstdec_name codec, gst_auto with
  | none, _ => "decodebin"
  | some _, some _ => "decodebin"
  | some s, none => s

/-- The topology description handed to `gst_parse_launch_full`. -/
def pipeline_desc (codec : CodecType) (gst_auto : Option String) : String :=
  "appsrc name=src format=2 do-timestamp=1 " ++ effective_src_caps codec gst_auto ++
    " ! " ++ effective_gstdec_name codec gst_auto ++
    " ! videoconvert ! appsink name=sink caps=video/x-raw,format=BGRx"

/-- Which sub-objects of one construction attempt are still alive (a live
mutex / cond is one that was initialized and not yet cleared; a live
pipeline / appsrc / appsink is a reference still held). -/
structure Resources where
  pipelineLive : Bool
  appsrcLive : Bool
  appsinkLive : Bool
  mutexLive : Bool
  condLive : Bool
deriving DecidableEq, Repr

/-- The resource state in which every sub-object has been released. -/
def Resources.allReleased : Resources :=
  { pipelineLive := false, appsrcLive := false, appsinkLive := false,
    mutexLive := false, condLive := false }

/-- Oracle for the external calls made by one construction attempt. -/
structure ConstructEnv where
  gst_auto : Option String
  parseOk : Bool
  playOk : Bool
deriving DecidableEq, Repr

/-- Embeds `reset_pipeline`: no-op when `decoder->pipeline` is NULL; otherwise stop
the pipeline, unref appsrc / appsink / pipeline, null the pipeline field and
clear the mutex and condition variable. -/
def reset_pipeline (decoder : GStreamerDecoder) (r : Resources) :
    GStreamerDecoder × Resources :=
  if decoder.pipeline then
    ({ decoder with pipeline := false },
     { r with pipelineLive := false, appsrcLive := false, appsinkLive := false,
              mutexLive := false, condLive := false })
  else
    (decoder, r)

/-- Embeds `construct_pipeline`: init the mutex / cond, arm `pipeline_wait`, zero
`samples_count`, build `pipeline_desc` and parse it (parse failure returns
FALSE without touching the freshly initialized mutex / cond), acquire the
appsrc and appsink references and register the callbacks, then drive the
pipeline to PLAYING (failure runs `reset_pipeline` and returns FALSE). -/
def construct_pipeline (env : ConstructEnv) (codec : CodecType)
    (decoder : GStreamerDecoder) : Bool × GStreamerDecoder × Resources :=
  let r : Resources :=
    { pipelineLive := false, appsrcLive := false, appsinkLive := false,
      mutexLive := true, condLive := true }
  let decoder := { decoder with pipeline_wait := 1, samples_count := 0 }
  if ¬ env.parseOk then
    (false, { decoder with pipeline := false }, r)
  else
    let decoder := { decoder with pipeline := true }
    let r := { r with pipelineLive := true, appsrcLive := true, appsinkLive := true }
    if ¬ env.playOk then
      let dr := reset_pipeline decoder r
      (false, dr.1, dr.2)
    else
      (true, decoder, r)

/-- Embeds `gst_decoder_new`: `g_malloc0` a decoder, run `construct_pipeline`, and
on failure free the decoder and return NULL.  The second component is the
ambient resource state the attempt leaves behind. -/
def gst_decoder_new (env : ConstructEnv) (codec : CodecType) :
    Option GStreamerDecoder × Resources :=
  let d0 : GStreamerDecoder :=
    { pipeline := false, pipeline_wait := 0, samples_count := 0,
      sample := none, mapinfo_memory := none, leakedRefs := [] }
  let res := construct_pipeline env codec d0
  if res.1 then (some res.2.1, res.2.2) else (none, res.2.2)

/-- Embeds `stream_gst_init`: record the construction result (NULL on failure) in
`st->gst_dec`. -/
def stream_gst_init (env : ConstructEnv) (st : display_stream) :
    display_stream × Resources :=
  let dr := gst_decoder_new env st.codec
  ({ st with gst_dec := dr.1 }, dr.2)

/-- Outcome of one `stream_gst_cleanup` call. -/
inductive CleanupResult where
  | done : display_stream → CleanupResult
  | nullDeref : CleanupResult
deriving DecidableEq, Repr

/-- Embeds `stream_gst_cleanup`: `release_last_frame` (which dereferences
`st->gst_dec` unconditionally), then destroy the decoder and null
`st->gst_dec` when it is non-NULL. -/
def stream_gst_cleanup (st : display_stream) : CleanupResult :=
  match release_last_frame st with
  | none => .nullDeref
  | some st1 =>
    match st1.gst_dec with
    | none => .done st1
    | some _ => .done { st1 with gst_dec := none }

/-! Concrete states and oracles used by the witnesses below. -/

/-- A freshly constructed decoder (as left by `construct_pipeline`). -/
def exDecoder : GStreamerDecoder :=
  { pipeline := true, pipeline_wait := 1, samples_count := 0,
    sample := none, mapinfo_memory := none, leakedRefs := [] }

/-- A stream with a constructed decoder and a 10-byte current frame. -/
def exStream : display_stream :=
  { codec := .mjpeg, frame_size := 10, gst_dec := some exDecoder, out_frame := none }

/-- A stream whose init failed: no decoder was recorded. -/
def exStreamNoDec : display_stream :=
  { codec := .mjpeg, frame_size := 10, gst_dec := none, out_frame := none }

/-- A stream currently holding an output frame lease on sample 5. -/
def exStreamLease : display_stream :=
  { codec := .mjpeg, frame_size := 10,
    gst_dec := some { pipeline := true, pipeline_wait := 1, samples_count := 0,
                      sample := some ⟨5, 50⟩, mapinfo_memory := some 5,
                      leakedRefs := [] },
    out_frame := some 50 }

/-- A cooperating pipeline oracle: push accepted, sample 1 pulled, map ok. -/
def exEnv : PipelineEnv :=
  { pushOk := true, pullSample := some ⟨1, 42⟩, mapOk := true }

/-- C1: for a decode call whose buffer is injected (non-empty frame, push
accepted) on a decoder with no pending output, the firing notification
determines the outcome: an input-ready-only delivery (`signal_pipeline` with
0 samples) yields NoOutput with an empty lease (no sample, no mapped
memory, null `out_frame`); a single output-ready delivery (1 sample), with
pull and map succeeding, yields a non-null raw frame pointer and a
`samples_count` back at zero. -/
theorem decode_notification_determines_outcome
    (env : PipelineEnv) (st : display_stream) (d : GStreamerDecoder) (s : GstSample)
    (hdec : st.gst_dec = some d) (hcnt : d.samples_count = 0)
    (hsz : st.frame_size ≠ 0) (hpush : env.pushOk = true)
    (hpull : env.pullSample = some s) (hmap : env.mapOk = true) :
    (∃ st' d' tr, stream_gst_data env [0] st = .done st' tr ∧
       st'.gst_dec = some d' ∧ st'.out_frame = none ∧
       d'.sample = none ∧ d'.mapinfo_memory = none) ∧
    (∃ st' d' tr, stream_gst_data env [1] st = .done st' tr ∧
       st'.gst_dec = some d' ∧ st'.out_frame = some s.dataPtr ∧
       d'.samples_count = 0) := by
  obtain ⟨cdc, n, gd, outf⟩ := st
  obtain ⟨p, w, c, smp, mem, lk⟩ := d
  obtain ⟨sid, dp⟩ := s
  simp only at hdec hcnt hsz
  subst hdec
  subst hcnt
  have h0 : stream_gst_data env [0] ⟨cdc, n, some ⟨p, w, 0, smp, mem, lk⟩, outf⟩ =
      .done ⟨cdc, n, some ⟨p, 1, 0, none, none, lk⟩, none⟩ ⟨true, true, false⟩ := by
    cases smp <;> cases mem <;>
      simp [stream_gst_data, release_last_frame, push_compressed_buffer,
        signal_pipeline, U32, hsz, hpush]
  have h1 : stream_gst_data env [1] ⟨cdc, n, some ⟨p, w, 0, smp, mem, lk⟩, outf⟩ =
      .done ⟨cdc, n, some ⟨p, 1, 0, some ⟨sid, dp⟩, some sid, lk⟩, some dp⟩
        ⟨true, true, true⟩ := by
    cases smp <;> cases mem <;>
      simp [stream_gst_data, release_last_frame, push_compressed_buffer,
        signal_pipeline, pull_raw_frame, U32, hsz, hpush, hpull, hmap]
  exact ⟨⟨_, _, _, h0, rfl, rfl, rfl, rfl⟩, ⟨_, _, _, h1, rfl, rfl, rfl⟩⟩

/-- Witness for C1 at the concrete stream / oracle. -/
theorem decode_notification_determines_outcome_witness :
    (exStream.gst_dec = some exDecoder ∧ exDecoder.samples_count = 0 ∧
     exStream.frame_size ≠ 0 ∧ exEnv.pushOk = true ∧
     exEnv.pullSample = some ⟨1, 42⟩ ∧ exEnv.mapOk = true) ∧
    ((∃ st' d' tr, stream_gst_data exEnv [0] exStream = .done st' tr ∧
        st'.gst_dec = some d' ∧ st'.out_frame = none ∧
        d'.sample = none ∧ d'.mapinfo_memory = none) ∧
     (∃ st' d' tr, stream_gst_data exEnv [1] exStream = .done st' tr ∧
        st'.gst_dec = some d' ∧ st'.out_frame = some (42 : Nat) ∧
        d'.samples_count = 0)) :=
  ⟨⟨rfl, rfl, by decide, rfl, rfl, rfl⟩,
   decode_notification_determines_outcome exEnv exStream exDecoder ⟨1, 42⟩
     rfl rfl (by decide) rfl rfl rfl⟩

/-- Every `signal_pipeline` delivery clears `pipeline_wait`, so after any
non-empty run of deliveries the flag is 0. -/
theorem foldl_signal_pipeline_wait (sched : List Nat) (d : GStreamerDecoder) (x : Nat) :
    (List.foldl signal_pipeline d (x :: sched)).pipeline_wait = 0 := by
  induction sched generalizing d x with
  | nil => rfl
  | cons y ys ih => exact ih _ y

/-- C2: once either notification has run, the wait loop's exit condition
holds (so the wait terminates), and for both orderings of an input-ready
and an output-ready delivery the decode call completes, consumes the one
output (which is absorbed by the count rather than lost: the raw frame is
returned), and the counter ends back at 0 — never below it; an
input-ready-only wake performs no decrement at 0 (no wraparound). -/
theorem decode_signal_race_safe
    (env : PipelineEnv) (st : display_stream) (d : GStreamerDecoder) (s : GstSample)
    (hdec : st.gst_dec = some d) (hcnt : d.samples_count = 0)
    (hsz : st.frame_size ≠ 0) (hpush : env.pushOk = true)
    (hpull : env.pullSample = some s) (hmap : env.mapOk = true) :
    (∀ (d0 : GStreamerDecoder) (sched : List Nat), sched ≠ [] →
       (sched.foldl signal_pipeline d0).pipeline_wait = 0) ∧
    (∀ sched, sched = [0, 1] ∨ sched = [1, 0] →
       ∃ st' d' tr, stream_gst_data env sched st = .done st' tr ∧
         st'.gst_dec = some d' ∧ d'.samples_count = 0 ∧
         st'.out_frame = some s.dataPtr) ∧
    (∃ st' d' tr, stream_gst_data env [0] st = .done st' tr ∧
       st'.gst_dec = some d' ∧ d'.samples_count = 0) := by
  obtain ⟨cdc, n, gd, outf⟩ := st
  obtain ⟨p, w, c, smp, mem, lk⟩ := d
  obtain ⟨sid, dp⟩ := s
  simp only at hdec hcnt hsz
  subst hdec
  subst hcnt
  refine ⟨?_, ?_, ?_⟩
  · intro d0 sched hne
    cases sched with
    | nil => exact absurd rfl hne
    | cons x xs => exact foldl_signal_pipeline_wait xs d0 x
  · rintro sched (rfl | rfl)
    · have h1 : stream_gst_data env [0, 1] ⟨cdc, n, some ⟨p, w, 0, smp, mem, lk⟩, outf⟩ =
          .done ⟨cdc, n, some ⟨p, 1, 0, some ⟨sid, dp⟩, some sid, lk⟩, some dp⟩
            ⟨true, true, true⟩ := by
        cases smp <;> cases mem <;>
          simp [stream_gst_data, release_last_frame, push_compressed_buffer,
            signal_pipeline, pull_raw_frame, U32, hsz, hpush, hpull, hmap]
      exact ⟨_, _, _, h1, rfl, rfl, rfl⟩
    · have h1 : stream_gst_data env [1, 0] ⟨cdc, n, some ⟨p, w, 0, smp, mem, lk⟩, outf⟩ =
          .done ⟨cdc, n, some ⟨p, 1, 0, some ⟨sid, dp⟩, some sid, lk⟩, some dp⟩
            ⟨true, true, true⟩ := by
        cases smp <;> cases mem <;>
          simp [stream_gst_data, release_last_frame, push_compressed_buffer,
            signal_pipeline, pull_raw_frame, U32, hsz, hpush, hpull, hmap]
      exact ⟨_, _, _, h1, rfl, rfl, rfl⟩
  · have h0 : stream_gst_data env [0] ⟨cdc, n, some ⟨p, w, 0, smp, mem, lk⟩, outf⟩ =
        .done ⟨cdc, n, some ⟨p, 1, 0, none, none, lk⟩, none⟩ ⟨true, true, false⟩ := by
      cases smp <;> cases mem <;>
        simp [stream_gst_data, release_last_frame, push_compressed_buffer,
          signal_pipeline, U32, hsz, hpush]
    exact ⟨_, _, _, h0, rfl, rfl⟩

/-- Witness for C2: both race orderings at the concrete stream / oracle. -/
theorem decode_signal_race_safe_witness :
    (exStream.frame_size ≠ 0 ∧ exEnv.pushOk = true) ∧
    (∃ st' d' tr, stream_gst_data exEnv [0, 1] exStream = .done st' tr ∧
       st'.gst_dec = some d' ∧ d'.samples_count = 0 ∧
       st'.out_frame = some (42 : Nat)) ∧
    (∃ st' d' tr, stream_gst_data exEnv [1, 0] exStream = .done st' tr ∧
       st'.gst_dec = some d' ∧ d'.samples_count = 0 ∧
       st'.out_frame = some (42 : Nat)) :=
  ⟨⟨by decide, rfl⟩,
   (decode_signal_race_safe exEnv exStream exDecoder ⟨1, 42⟩
      rfl rfl (by decide) rfl rfl rfl).2.1 [0, 1] (Or.inl rfl),
   (decode_signal_race_safe exEnv exStream exDecoder ⟨1, 42⟩
      rfl rfl (by decide) rfl rfl rfl).2.1 [1, 0] (Or.inr rfl)⟩

/-- C3: a decode call with a zero-length current frame returns NoOutput
without `gst_app_src_push_buffer` ever being invoked and without entering
the blocking wait (trace `pushAttempted = false, waited = false`); when the
push is invoked but the pipeline refuses the buffer, the call likewise
returns NoOutput without entering the wait. -/
theorem decode_refusal_immediate
    (env : PipelineEnv) (sched : List Nat) (st : display_stream) (d : GStreamerDecoder)
    (hdec : st.gst_dec = some d) :
    (st.frame_size = 0 →
       ∃ st', stream_gst_data env sched st = .done st' ⟨false, false, false⟩ ∧
         st'.out_frame = none) ∧
    (st.frame_size ≠ 0 → env.pushOk = false →
       ∃ st', stream_gst_data env sched st = .done st' ⟨true, false, false⟩ ∧
         st'.out_frame = none) := by
  obtain ⟨cdc, n, gd, outf⟩ := st
  obtain ⟨p, w, c, smp, mem, lk⟩ := d
  simp only at hdec
  subst hdec
  constructor
  · intro hz
    simp only at hz
    subst hz
    have h : stream_gst_data env sched ⟨cdc, 0, some ⟨p, w, c, smp, mem, lk⟩, outf⟩ =
        .done ⟨cdc, 0, some ⟨p, 1, c, none, none, lk⟩, none⟩ ⟨false, false, false⟩ := by
      cases smp <;> cases mem <;>
        simp [stream_gst_data, release_last_frame, push_compressed_buffer]
    exact ⟨_, h, rfl⟩
  · intro hsz hpush
    simp only at hsz
    have h : stream_gst_data env sched ⟨cdc, n, some ⟨p, w, c, smp, mem, lk⟩, outf⟩ =
        .done ⟨cdc, n, some ⟨p, 1, c, none, none, lk⟩, none⟩ ⟨true, false, false⟩ := by
      cases smp <;> cases mem <;>
        simp [stream_gst_data, release_last_frame, push_compressed_buffer, hsz, hpush]
    exact ⟨_, h, rfl⟩

/-- Witness for C3: an empty frame, and a push-refusing pipeline. -/
theorem decode_refusal_immediate_witness :
    ((⟨.mjpeg, 0, some exDecoder, none⟩ : display_stream).frame_size = 0 ∧
     ∃ st', stream_gst_data exEnv [0] ⟨.mjpeg, 0, some exDecoder, none⟩ =
         .done st' ⟨false, false, false⟩ ∧ st'.out_frame = none) ∧
    (exStream.frame_size ≠ 0 ∧
     (⟨false, none, true⟩ : PipelineEnv).pushOk = false ∧
     ∃ st', stream_gst_data ⟨false, none, true⟩ [0] exStream =
         .done st' ⟨true, false, false⟩ ∧ st'.out_frame = none) :=
  ⟨⟨rfl, (decode_refusal_immediate exEnv [0] ⟨.mjpeg, 0, some exDecoder, none⟩
      exDecoder rfl).1 rfl⟩,
   ⟨by decide, rfl, (decode_refusal_immediate ⟨false, none, true⟩ [0] exStream
      exDecoder rfl).2 (by decide) rfl⟩⟩

/-- C4 (code bug): after a failed init the stream records no pipeline
(`gst_dec = NULL`), as the claim says — but a subsequent decode call is not
a safe no-op: `release_last_frame` reads `decoder->mapinfo.memory` through
the NULL decoder pointer, a NULL dereference, before anything else runs. -/
theorem decode_after_failed_init_crashes
    (cenv : ConstructEnv) (env : PipelineEnv) (sched : List Nat) (st : display_stream)
    (hfail : cenv.parseOk = false ∨ cenv.playOk = false) :
    (stream_gst_init cenv st).1.gst_dec = none ∧
    stream_gst_data env sched (stream_gst_init cenv st).1 = .nullDeref := by
  obtain ⟨g, pk, yk⟩ := cenv
  obtain ⟨cdc, n, gd, outf⟩ := st
  simp only at hfail
  have hnone : (stream_gst_init ⟨g, pk, yk⟩ ⟨cdc, n, gd, outf⟩).1.gst_dec = none := by
    rcases hfail with rfl | rfl
    · simp [stream_gst_init, gst_decoder_new, construct_pipeline, reset_pipeline]
    · cases pk <;>
        simp [stream_gst_init, gst_decoder_new, construct_pipeline, reset_pipeline]
  refine ⟨hnone, ?_⟩
  rcases hd : (stream_gst_init ⟨g, pk, yk⟩ ⟨cdc, n, gd, outf⟩).1 with ⟨cdc', n', gd', outf'⟩
  rw [hd] at hnone
  simp only at hnone
  subst hnone
  simp [stream_gst_data, release_last_frame]

/-- Witness for C4: a parse failure followed by a decode attempt. -/
theorem decode_after_failed_init_crashes_witness :
    ((⟨none, false, true⟩ : ConstructEnv).parseOk = false ∨
     (⟨none, false, true⟩ : ConstructEnv).playOk = false) ∧
    ((stream_gst_init ⟨none, false, true⟩ exStreamNoDec).1.gst_dec = none ∧
     stream_gst_data exEnv [0] (stream_gst_init ⟨none, false, true⟩ exStreamNoDec).1 =
       .nullDeref) :=
  ⟨Or.inl rfl,
   decode_after_failed_init_crashes ⟨none, false, true⟩ exEnv [0] exStreamNoDec
     (Or.inl rfl)⟩

/-- C5 (code bug): cleanup is not idempotent and not safe on a stream whose
construction never finished.  The first cleanup on a live stream succeeds
and nulls `gst_dec`; the second cleanup then dereferences the NULL decoder
inside `release_last_frame`, as does a cleanup after a failed init. -/
theorem cleanup_not_idempotent_null_deref :
    stream_gst_cleanup exStream =
      .done { codec := .mjpeg, frame_size := 10, gst_dec := none, out_frame := none } ∧
    stream_gst_cleanup
      { codec := .mjpeg, frame_size := 10, gst_dec := none, out_frame := none } =
      .nullDeref ∧
    stream_gst_cleanup (stream_gst_init ⟨none, false, true⟩ exStream).1 = .nullDeref := by
  refine ⟨rfl, rfl, rfl⟩

/-- C6 counterexample: with one output counted, a successful pull but a
failing `gst_buffer_map`, decode reports NoOutput — yet the decoder
retains the pulled sample reference at return (`decoder->sample` is the
pulled sample, not NULL), contradicting the claim that no sample reference
is retained. -/
theorem decode_map_failure_retains_sample_cex :
    ∃ st' tr d',
      stream_gst_data ⟨true, some ⟨7, 99⟩, false⟩ [1] exStream = .done st' tr ∧
      st'.out_frame = none ∧ st'.gst_dec = some d' ∧ d'.sample = some ⟨7, 99⟩ := by
  exact ⟨_, _, _, rfl, rfl, rfl, rfl⟩

/-- C6 amended: when an output was counted but the pull returns no sample,
decode reports NoOutput and the lease is fully empty; when the pull
succeeds but the mapping fails, decode reports NoOutput with no mapped
memory region, but the decoder keeps the pulled sample reference (it is
dropped by the next `release_last_frame`). -/
theorem decode_pull_map_failure
    (env : PipelineEnv) (st : display_stream) (d : GStreamerDecoder)
    (hdec : st.gst_dec = some d) (hcnt : d.samples_count = 0)
    (hsz : st.frame_size ≠ 0) (hpush : env.pushOk = true) :
    (env.pullSample = none →
       ∃ st' d' tr, stream_gst_data env [1] st = .done st' tr ∧
         st'.gst_dec = some d' ∧ st'.out_frame = none ∧
         d'.sample = none ∧ d'.mapinfo_memory = none) ∧
    (∀ s, env.pullSample = some s → env.mapOk = false →
       ∃ st' d' tr, stream_gst_data env [1] st = .done st' tr ∧
         st'.gst_dec = some d' ∧ st'.out_frame = none ∧
         d'.mapinfo_memory = none ∧ d'.sample = some s) := by
  obtain ⟨cdc, n, gd, outf⟩ := st
  obtain ⟨p, w, c, smp, mem, lk⟩ := d
  simp only at hdec hcnt hsz
  subst hdec
  subst hcnt
  constructor
  · intro hpull
    have h : stream_gst_data env [1] ⟨cdc, n, some ⟨p, w, 0, smp, mem, lk⟩, outf⟩ =
        .done ⟨cdc, n, some ⟨p, 1, 0, none, none, lk⟩, none⟩ ⟨true, true, true⟩ := by
      cases smp <;> cases mem <;>
        simp [stream_gst_data, release_last_frame, push_compressed_buffer,
          signal_pipeline, pull_raw_frame, U32, hsz, hpush, hpull]
    exact ⟨_, _, _, h, rfl, rfl, rfl, rfl⟩
  · intro s hpull hmap
    obtain ⟨sid, dp⟩ := s
    have h : stream_gst_data env [1] ⟨cdc, n, some ⟨p, w, 0, smp, mem, lk⟩, outf⟩ =
        .done ⟨cdc, n, some ⟨p, 1, 0, some ⟨sid, dp⟩, none, lk⟩, none⟩
          ⟨true, true, true⟩ := by
      cases smp <;> cases mem <;>
        simp [stream_gst_data, release_last_frame, push_compressed_buffer,
          signal_pipeline, pull_raw_frame, U32, hsz, hpush, hpull, hmap]
    exact ⟨_, _, _, h, rfl, rfl, rfl, rfl⟩

/-- Witness for the amended C6: a pull failure and a map failure at the
concrete stream. -/
theorem decode_pull_map_failure_witness :
    (exStream.frame_size ≠ 0 ∧
     (⟨true, none, true⟩ : PipelineEnv).pullSample = none ∧
     ∃ st' d' tr, stream_gst_data ⟨true, none, true⟩ [1] exStream = .done st' tr ∧
       st'.gst_dec = some d' ∧ st'.out_frame = none ∧
       d'.sample = none ∧ d'.mapinfo_memory = none) ∧
    ((⟨true, some ⟨7, 99⟩, false⟩ : PipelineEnv).mapOk = false ∧
     ∃ st' d' tr, stream_gst_data ⟨true, some ⟨7, 99⟩, false⟩ [1] exStream = .done st' tr ∧
       st'.gst_dec = some d' ∧ st'.out_frame = none ∧
       d'.mapinfo_memory = none ∧ d'.sample = some ⟨7, 99⟩) :=
  ⟨⟨by decide, rfl,
    (decode_pull_map_failure ⟨true, none, true⟩ exStream exDecoder
       rfl rfl (by decide) rfl).1 rfl⟩,
   ⟨rfl,
    (decode_pull_map_failure ⟨true, some ⟨7, 99⟩, false⟩ exStream exDecoder
       rfl rfl (by decide) rfl).2 ⟨7, 99⟩ rfl rfl⟩⟩

/-- C7: decode releases any previously held lease first and
unconditionally.  (i) `release_last_frame` empties the lease (unmaps the
memory, drops the sample reference, nulls `out_frame`); (ii) the release
happens even when no injection follows (empty frame), with no reference
leaked; (iii) a second successful decode on a stream holding a lease ends
holding exactly the new sample's lease, and the ghost leak ledger is
unchanged — the first call's sample and mapping were released, not
overwritten, before the second call's were acquired. -/
theorem decode_releases_previous_lease
    (env : PipelineEnv) (sched : List Nat) (st : display_stream)
    (d : GStreamerDecoder) (s1 : GstSample)
    (hdec : st.gst_dec = some d) (hs : d.sample = some s1)
    (hm : d.mapinfo_memory = some s1.sid) :
    (release_last_frame st = some { st with
        gst_dec := some { d with sample := none, mapinfo_memory := none },
        out_frame := none }) ∧
    (st.frame_size = 0 →
       ∃ st' d', stream_gst_data env sched st = .done st' ⟨false, false, false⟩ ∧
         st'.gst_dec = some d' ∧ st'.out_frame = none ∧
         d'.sample = none ∧ d'.mapinfo_memory = none ∧
         d'.leakedRefs = d.leakedRefs) ∧
    (∀ s2, d.samples_count = 0 → st.frame_size ≠ 0 → env.pushOk = true →
       env.pullSample = some s2 → env.mapOk = true →
       ∃ st' d' tr, stream_gst_data env [1] st = .done st' tr ∧
         st'.gst_dec = some d' ∧ d'.sample = some s2 ∧
         d'.mapinfo_memory = some s2.sid ∧ st'.out_frame = some s2.dataPtr ∧
         d'.leakedRefs = d.leakedRefs) := by
  obtain ⟨cdc, n, gd, outf⟩ := st
  obtain ⟨p, w, c, smp, mem, lk⟩ := d
  obtain ⟨sid1, dp1⟩ := s1
  simp only at hdec hs hm
  subst hdec
  subst hs
  subst hm
  refine ⟨?_, ?_, ?_⟩
  · simp [release_last_frame]
  · intro hz
    simp only at hz
    subst hz
    have h : stream_gst_data env sched ⟨cdc, 0,
        some ⟨p, w, c, some ⟨sid1, dp1⟩, some sid1, lk⟩, outf⟩ =
        .done ⟨cdc, 0, some ⟨p, 1, c, none, none, lk⟩, none⟩ ⟨false, false, false⟩ := by
      simp [stream_gst_data, release_last_frame, push_compressed_buffer]
    exact ⟨_, _, h, rfl, rfl, rfl, rfl, rfl⟩
  · intro s2 hcnt hsz hpush hpull hmap
    obtain ⟨sid2, dp2⟩ := s2
    simp only at hcnt hsz
    subst hcnt
    have h : stream_gst_data env [1] ⟨cdc, n,
        some ⟨p, w, 0, some ⟨sid1, dp1⟩, some sid1, lk⟩, outf⟩ =
        .done ⟨cdc, n, some ⟨p, 1, 0, some ⟨sid2, dp2⟩, some sid2, lk⟩, some dp2⟩
          ⟨true, true, true⟩ := by
      simp [stream_gst_data, release_last_frame, push_compressed_buffer,
        signal_pipeline, pull_raw_frame, U32, hsz, hpush, hpull, hmap]
    exact ⟨_, _, _, h, rfl, rfl, rfl, rfl, rfl⟩

/-- Witness for C7 at a stream holding a lease on sample 5, decoding into
sample 1. -/
theorem decode_releases_previous_lease_witness :
    (exStreamLease.frame_size ≠ 0 ∧ exEnv.pushOk = true ∧
     exEnv.pullSample = some ⟨1, 42⟩ ∧ exEnv.mapOk = true) ∧
    (∃ st' d' tr, stream_gst_data exEnv [1] exStreamLease = .done st' tr ∧
       st'.gst_dec = some d' ∧ d'.sample = some ⟨1, 42⟩ ∧
       d'.mapinfo_memory = some 1 ∧ st'.out_frame = some (42 : Nat) ∧
       d'.leakedRefs = ([] : List Nat)) :=
  ⟨⟨by decide, rfl, rfl, rfl⟩,
   (decode_releases_previous_lease exEnv [1] exStreamLease
      { pipeline := true, pipeline_wait := 1, samples_count := 0,
        sample := some ⟨5, 50⟩, mapinfo_memory := some 5, leakedRefs := [] }
      ⟨5, 50⟩ rfl rfl rfl).2.2 ⟨1, 42⟩ rfl (by decide) rfl rfl rfl⟩

/-- C8 counterexample: the two overrides are driven by the single
environment variable `SPICE_GST_AUTO`, so the caps override (generic
type-detection) can never be active without the decoder override also
being active — there is no environment value producing a topology with
`typefind=true` and a codec-specific decoder. -/
theorem caps_override_not_independent_cex :
    ¬ ∃ g : Option String, effective_src_caps .mjpeg g = "typefind=true" ∧
        effective_gstdec_name .mjpeg g ≠ "decodebin" := by
  rintro ⟨g, hc, hd⟩
  cases g with
  | none => exact absurd hc (by decide)
  | some a => exact hd rfl

/-- C8 amended: with the variable unset each codec kind gets its specific
caps and decoder fragment in the produced description; value `decodebin`
activates the generic-decoder override alone (caps stay codec-specific);
any other value activates the caps override and, with it, necessarily the
decoder override as well. -/
theorem topology_selection_and_overrides :
    (pipeline_desc .mjpeg none =
       "appsrc name=src format=2 do-timestamp=1 caps=image/jpeg ! jpegdec ! videoconvert ! appsink name=sink caps=video/x-raw,format=BGRx") ∧
    (effective_src_caps .mjpeg none = "caps=image/jpeg" ∧
     effective_gstdec_name .mjpeg none = "jpegdec") ∧
    (effective_src_caps .vp8 none = "caps=video/x-vp8" ∧
     effective_gstdec_name .vp8 none = "vp8dec") ∧
    (effective_src_caps .h264 none = "caps=video/x-h264" ∧
     effective_gstdec_name .h264 none = "h264parse ! avdec_h264") ∧
    (∀ c : CodecType, effective_src_caps c (some "decodebin") = effective_src_caps c none ∧
       effective_gstdec_name c (some "decodebin") = "decodebin") ∧
    (∀ (c : CodecType) (a : String), a ≠ "decodebin" →
       effective_src_caps c (some a) = "typefind=true" ∧
       effective_gstdec_name c (some a) = "decodebin") := by
  refine ⟨rfl, ⟨rfl, rfl⟩, ⟨rfl, rfl⟩, ⟨rfl, rfl⟩, ?_, ?_⟩
  · intro c
    cases c <;>
      simp [effective_src_caps, effective_gstdec_name, codec_src_caps, codec_gstdec_name]
  · intro c a ha
    cases c <;>
      simp [effective_src_caps, effective_gstdec_name, codec_src_caps,
        codec_gstdec_name, ha]

/-- Witness for the amended C8: `SPICE_GST_AUTO=x` on VP8 forces both the
generic caps and the generic decoder. -/
theorem topology_selection_and_overrides_witness :
    ("x" ≠ "decodebin") ∧
    (effective_src_caps .vp8 (some "x") = "typefind=true" ∧
     effective_gstdec_name .vp8 (some "x") = "decodebin") :=
  ⟨by decide, topology_selection_and_overrides.2.2.2.2.2 .vp8 "x" (by decide)⟩

/-- C9 counterexample: a construction attempt whose topology description
fails to parse returns the error (no decoder), but the mutex and condition
variable initialized at the start of the attempt are left un-cleared —
not every sub-object created during the attempt is released. -/
theorem parse_failure_leaves_mutex_cex :
    (gst_decoder_new ⟨none, false, true⟩ .mjpeg).1 = none ∧
    (gst_decoder_new ⟨none, false, true⟩ .mjpeg).2.mutexLive = true ∧
    (gst_decoder_new ⟨none, false, true⟩ .mjpeg).2.condLive = true :=
  ⟨rfl, rfl, rfl⟩

/-- C9 amended: every failing construction attempt returns the error and
leaves no pipeline-level resource (pipeline, appsrc, appsink references);
on a state-transition failure `reset_pipeline` additionally clears the
mutex and condition variable, so everything is released, while on a parse
failure the mutex and condition variable remain initialized. -/
theorem construction_failure_cleanup (env : ConstructEnv) (codec : CodecType) :
    (env.parseOk = true → env.playOk = false →
       (gst_decoder_new env codec).1 = none ∧
       (gst_decoder_new env codec).2 = Resources.allReleased) ∧
    (env.parseOk = false →
       (gst_decoder_new env codec).1 = none ∧
       (gst_decoder_new env codec).2.pipelineLive = false ∧
       (gst_decoder_new env codec).2.appsrcLive = false ∧
       (gst_decoder_new env codec).2.appsinkLive = false ∧
       (gst_decoder_new env codec).2.mutexLive = true ∧
       (gst_decoder_new env codec).2.condLive = true) := by
  obtain ⟨g, pk, yk⟩ := env
  constructor
  · intro hpk hyk
    simp only at hpk hyk
    subst hpk
    subst hyk
    simp [gst_decoder_new, construct_pipeline, reset_pipeline, Resources.allReleased]
  · intro hpk
    simp only at hpk
    subst hpk
    simp [gst_decoder_new, construct_pipeline, reset_pipeline]

/-- Witness for the amended C9: a state-transition failure releases
everything. -/
theorem construction_failure_cleanup_witness :
    ((⟨none, true, false⟩ : ConstructEnv).parseOk = true ∧
     (⟨none, true, false⟩ : ConstructEnv).playOk = false) ∧
    ((gst_decoder_new ⟨none, true, false⟩ .vp8).1 = none ∧
     (gst_decoder_new ⟨none, true, false⟩ .vp8).2 = Resources.allReleased) :=
  ⟨⟨rfl, rfl⟩, (construction_failure_cleanup ⟨none, true, false⟩ .vp8).1 rfl rfl⟩

/-- C10: every decode call that returns (any outcome: empty frame, push
refusal, no-output wake, or successful frame) leaves `pipeline_wait` set
to 1 — it is armed before injection and re-armed inside the lock right
after the wait loop exits, so the next call starts with the flag armed. -/
theorem decode_leaves_wait_armed (env : PipelineEnv) (sched : List Nat)
    (st st' : display_stream) (tr : DecodeTrace)
    (h : stream_gst_data env sched st = .done st' tr) :
    ∃ d', st'.gst_dec = some d' ∧ d'.pipeline_wait = 1 := by
  obtain ⟨cdc, n, gd, outf⟩ := st
  cases gd with
  | none => simp [stream_gst_data, release_last_frame] at h
  | some d =>
    obtain ⟨p, w, c, smp, mem, lk⟩ := d
    have hrel : release_last_frame ⟨cdc, n, some ⟨p, w, c, smp, mem, lk⟩, outf⟩ =
        some ⟨cdc, n, some ⟨p, w, c, none, none, lk⟩, none⟩ := by
      cases smp <;> cases mem <;> simp [release_last_frame]
    unfold stream_gst_data at h
    rw [hrel] at h
    by_cases hn : n = 0
    · simp [push_compressed_buffer, hn] at h
      obtain ⟨h1, h2⟩ := h
      subst h1
      exact ⟨_, rfl, rfl⟩
    · by_cases hpo : env.pushOk = true
      · by_cases hw : ((sched.foldl signal_pipeline
            ⟨p, 1, c, none, none, lk⟩ : GStreamerDecoder)).pipeline_wait = 0
        · by_cases hs : ((sched.foldl signal_pipeline
              ⟨p, 1, c, none, none, lk⟩ : GStreamerDecoder)).samples_count = 0
          · simp [push_compressed_buffer, hn, hpo, hw, hs] at h
            obtain ⟨h1, h2⟩ := h
            subst h1
            exact ⟨_, rfl, rfl⟩
          · cases hps : env.pullSample with
            | none =>
              simp [push_compressed_buffer, pull_raw_frame, hn, hpo, hw, hs, hps] at h
              obtain ⟨h1, h2⟩ := h
              subst h1
              exact ⟨_, rfl, rfl⟩
            | some s =>
              by_cases hm2 : env.mapOk = true
              · simp [push_compressed_buffer, pull_raw_frame, hn, hpo, hw, hs, hps,
                  hm2] at h
                obtain ⟨h1, h2⟩ := h
                subst h1
                exact ⟨_, rfl, rfl⟩
              · simp [push_compressed_buffer, pull_raw_frame, hn, hpo, hw, hs, hps,
                  hm2] at h
                obtain ⟨h1, h2⟩ := h
                subst h1
                exact ⟨_, rfl, rfl⟩
        · simp [push_compressed_buffer, hn, hpo, hw] at h
      · simp [push_compressed_buffer, hn, hpo] at h
        obtain ⟨h1, h2⟩ := h
        subst h1
        exact ⟨_, rfl, rfl⟩

/-- Witness for C10: a completed decode call at the concrete stream. -/
theorem decode_leaves_wait_armed_witness :
    stream_gst_data exEnv [0] exStream = .done exStream ⟨true, true, false⟩ ∧
    (∃ d', exStream.gst_dec = some d' ∧ d'.pipeline_wait = 1) :=
  ⟨by decide,
   decode_leaves_wait_armed exEnv [0] exStream exStream ⟨true, true, false⟩ (by decide)⟩

end SpiceGst
